import Mathlib

/-!
Shallow embedding of the ACEest Fitness Flask service
(src/ACEest_Fitness.py) and verification of its specification.

The program keeps a global in-memory list `WORKOUTS` of records
`{"workout": ..., "duration": ...}` and exposes four operations over
three HTTP routes:

  GET  /               -> welcome string (home)
  GET  /health         -> liveness probe (health_check)
  POST /api/workouts   -> add a workout (add_workout, via add_workout_logic)
  GET  /api/workouts   -> list all workouts (get_workouts)

The global list is modelled by explicit state passing: each handler takes
the current `WORKOUTS` list and returns its response together with the
(possibly updated) list.  JSON values arriving in a request body are
modelled by the inductive `PyVal` (Python values decoded from JSON);
compound JSON values (arrays, objects) are not modelled, as no claim
depends on them.  Python exceptions from `int(...)` are modelled by
`Option`: `pyInt s = none` models `int(s)` raising `ValueError`.
-/

namespace ACEestFitness

/-- Python values that can appear as a field of a decoded JSON body.
`pfloat w frac` models a non-integral JSON number by its decimal text,
so that `str(30.5)` is the string "30.5"; its Python `str()` is
`w ++ "." ++ frac`. -/
inductive PyVal where
  | pnone
  | pbool (b : Bool)
  | pint (n : Int)
  | pfloat (w : Int) (frac : String)
  | pstr (s : String)
deriving DecidableEq, Repr

/-- Python truthiness (`bool(v)`) for the modelled values: `None` and
`False` are falsy, a number is falsy iff it is zero, a string is falsy
iff it is empty. -/
def pyTruthy : PyVal → Bool
  | .pnone => false
  | .pbool b => b
  | .pint n => !(n == 0)
  | .pfloat w frac => !(w == 0 && frac.toList.all (fun c => c == '0'))
  | .pstr s => !(s == "")

/-- Python `str(v)` for the modelled values. -/
def pyStr : PyVal → String
  | .pnone => "None"
  | .pbool true => "True"
  | .pbool false => "False"
  | .pint n => toString n
  | .pfloat w frac => toString w ++ "." ++ frac
  | .pstr s => s

/-- The whitespace characters stripped by Python `int(str)`
(ASCII range; unicode whitespace is not modelled). -/
def isPySpace (c : Char) : Bool :=
  c == ' ' || c == '\t' || c == '\n' || c == '\x0b' || c == '\x0c' || c == '\r'

/-- Digit run of a Python integer literal after its first digit:
single underscores are allowed between digits only.  `acc` is the value
of the digits consumed so far. -/
def pyDigitsRest (acc : Nat) : List Char → Option Nat
  | [] => some acc
  | '_' :: c :: rest =>
      if c.isDigit then pyDigitsRest (acc * 10 + (c.toNat - 48)) rest else none
  | c :: rest =>
      if c.isDigit then pyDigitsRest (acc * 10 + (c.toNat - 48)) rest else none

/-- Digit run of a Python integer literal: at least one digit, then
`pyDigitsRest`. -/
def pyDigits : List Char → Option Nat
  | [] => none
  | c :: rest => if c.isDigit then pyDigitsRest (c.toNat - 48) rest else none

/-- Python `int(s)` for a string argument, modelled over ASCII:
surrounding whitespace is stripped, then an optional sign followed by
decimal digits with optional single underscore separators.
`none` models `ValueError`. -/
def pyInt (s : String) : Option Int :=
  let core := ((s.toList.dropWhile isPySpace).reverse.dropWhile isPySpace).reverse
  match core with
  | '+' :: rest => (pyDigits rest).map (fun n => (n : Int))
  | '-' :: rest => (pyDigits rest).map (fun n => -(n : Int))
  | l => (pyDigits l).map (fun n => (n : Int))

/-- One record of the `WORKOUTS` list: a flat pair with exactly the two
fields `workout` and `duration` (line 20 of the source appends
`{"workout": workout, "duration": duration}`). -/
structure Entry where
  workout : PyVal
  duration : Int
deriving DecidableEq, Repr

/-- The global in-memory store `WORKOUTS` (initially `[]`). -/
abbrev Workouts := List Entry

/-- Initial value of the global `WORKOUTS` list. -/
def WORKOUTS : Workouts := []

/-- The global `APP_VERSION` constant. -/
def APP_VERSION : String := "1.0"

/-- The dictionaries returned by `add_workout_logic`:
`{"status": ..., "message": ...}`. -/
structure LogicResult where
  status : String
  message : String
deriving DecidableEq, Repr

/-- Core logic for adding a workout (`add_workout_logic` in the source).
Takes the current `WORKOUTS` list and returns the result dictionary
together with the updated list.  The `try/except ValueError` around
`int(duration_str)` is modelled by matching on `pyInt duration_str`. -/
def add_workout_logic (workout : PyVal) (duration_str : String) (ws : Workouts) :
    LogicResult × Workouts :=
  if pyTruthy workout = false ∨ duration_str = "" then
    (⟨"error", "Please enter both workout and duration."⟩, ws)
  else
    match pyInt duration_str with
    | none => (⟨"error", "Duration must be a number."⟩, ws)
    | some duration =>
        if duration ≤ 0 then
          (⟨"error", "Duration must be a positive number."⟩, ws)
        else
          (⟨"success", "\x27" ++ pyStr workout ++ "\x27 added successfully!"⟩,
           ws ++ [⟨workout, duration⟩])

/-- Handler for `GET /` (`home`): the welcome string.  It neither reads
nor writes the store. -/
def home (ws : Workouts) : String × Workouts :=
  ("Welcome to ACEest Fitness & Gym! Application Version: " ++ APP_VERSION, ws)

/-- Body of the `/health` response: `{"status": "UP", "version": APP_VERSION}`. -/
structure HealthBody where
  status : String
  version : String
deriving DecidableEq, Repr

/-- Handler for `GET /health` (`health_check`): returns the constant
body and HTTP status 200, leaving the store untouched. -/
def health_check (ws : Workouts) : (HealthBody × Nat) × Workouts :=
  ((⟨"UP", APP_VERSION⟩, 200), ws)

/-- A decoded JSON request body for `POST /api/workouts`, restricted to
the two keys the handler reads; `none` models a missing key. -/
structure ReqBody where
  workout : Option PyVal
  duration : Option PyVal
deriving DecidableEq, Repr

/-- Handler for `POST /api/workouts` (`add_workout`):
`workout = data.get("workout", "")`,
`duration_str = str(data.get("duration", ""))`, then HTTP 400 on an
error result and 201 otherwise.  The response is the result dictionary
paired with the HTTP status code. -/
def add_workout (body : ReqBody) (ws : Workouts) : (LogicResult × Nat) × Workouts :=
  let workout := body.workout.getD (.pstr "")
  let duration_str := pyStr (body.duration.getD (.pstr ""))
  let r := add_workout_logic workout duration_str ws
  if r.1.status = "error" then ((r.1, 400), r.2) else ((r.1, 201), r.2)

/-- Body of the `GET /api/workouts` response:
`{"total_workouts": len(WORKOUTS), "workouts": WORKOUTS}`. -/
structure Summary where
  total_workouts : Nat
  workouts : Workouts
deriving DecidableEq, Repr

/-- Handler for `GET /api/workouts` (`get_workouts`): the summary of the
whole store, leaving the store untouched. -/
def get_workouts (ws : Workouts) : Summary × Workouts :=
  (⟨ws.length, ws⟩, ws)

/-- HTTP methods used by the service. -/
inductive Method where
  | GET
  | POST
deriving DecidableEq, Repr

/-- One invocation of a routed operation of the service. -/
inductive Op where
  | homeOp
  | healthOp
  | addOp (body : ReqBody)
  | listOp
deriving DecidableEq, Repr

/-- The route table registered on the Flask app: (method, path) pairs,
in source order. -/
def routes : List (Method × String) :=
  [(.GET, "/"), (.GET, "/health"), (.POST, "/api/workouts"), (.GET, "/api/workouts")]

/-- Routing: which operation (if any) a method/path pair reaches, the
request body being passed through to the add-workout handler.
Unrouted pairs yield `none`. -/
def dispatch (m : Method) (p : String) (body : ReqBody) : Option Op :=
  if m = .GET ∧ p = "/" then some .homeOp
  else if m = .GET ∧ p = "/health" then some .healthOp
  else if m = .POST ∧ p = "/api/workouts" then some (.addOp body)
  else if m = .GET ∧ p = "/api/workouts" then some .listOp
  else none

/-- Effect of one routed operation on the `WORKOUTS` store. -/
def applyOp : Op → Workouts → Workouts
  | .homeOp, ws => (home ws).2
  | .healthOp, ws => (health_check ws).2
  | .addOp body, ws => (add_workout body ws).2
  | .listOp, ws => (get_workouts ws).2

/-- The spec predicate for acceptance, written from the specification
text alone: the duration string parses as an integer and that integer
is strictly positive.  Used to compare `add_workout_logic` against the
spec sentence of claim C1. -/
def parsesPositive (d : String) : Bool :=
  match pyInt d with
  | some n => decide (0 < n)
  | none => false

/-- Exhaustive case analysis of `add_workout_logic`: either it returns
an error and leaves the store unchanged, or the duration parses to a
strictly positive integer, the workout is truthy, and exactly that one
entry is appended at the end. -/
theorem add_workout_logic_cases (w : PyVal) (d : String) (ws : Workouts) :
    ((add_workout_logic w d ws).1.status = "error" ∧ (add_workout_logic w d ws).2 = ws)
    ∨ (∃ n, pyInt d = some n ∧ 0 < n ∧ pyTruthy w = true ∧
        (add_workout_logic w d ws).1.status = "success" ∧
        (add_workout_logic w d ws).2 = ws ++ [⟨w, n⟩]) := by
  by_cases h : pyTruthy w = false ∨ d = ""
  · left
    constructor <;> simp [add_workout_logic, h]
  · rcases hp : pyInt d with _ | n
    · left
      constructor <;> simp [add_workout_logic, h, hp]
    · by_cases hn : n ≤ 0
      · left
        constructor <;> simp [add_workout_logic, h, hp, hn]
      · right
        refine ⟨n, hp ▸ rfl, by omega, ?_, ?_, ?_⟩
        · push_neg at h
          cases hw : pyTruthy w
          · exact absurd hw h.1
          · rfl
        · simp [add_workout_logic, h, hp, hn]
        · simp [add_workout_logic, h, hp, hn]

/-- C1, counterexample to the claim as stated: the claim quantifies over
every workout string, but for the empty workout string and duration
string "5" the function rejects the request even though "5" parses as
the strictly positive integer 5 — the non-emptiness check on the
workout is a further condition causing rejection. -/
theorem C1_counterexample :
    ¬ ((add_workout_logic (.pstr "") "5" []).1.status = "success"
        ↔ parsesPositive "5" = true) := by
  decide

/-- C1 (amended): for every non-empty workout string and every duration
string, `add_workout_logic` returns status "success" exactly when the
duration string parses as an integer (Python `int` semantics) that is
strictly positive; no other condition causes rejection. -/
theorem C1_accepts_iff_positive_int (w d : String) (ws : Workouts) (hw : w ≠ "") :
    ((add_workout_logic (.pstr w) d ws).1.status = "success")
      ↔ parsesPositive d = true := by
  by_cases hd : d = ""
  · subst hd
    have h1 : (add_workout_logic (.pstr w) "" ws).1.status = "error" := by
      simp [add_workout_logic]
    rw [h1]
    decide
  · have hcond : ¬ (pyTruthy (.pstr w) = false ∨ d = "") := by
      push_neg
      exact ⟨by simp [pyTruthy, hw], hd⟩
    rcases hp : pyInt d with _ | n
    · simp [add_workout_logic, hcond, hp, parsesPositive]
    · by_cases hn : n ≤ 0
      · simp [add_workout_logic, hcond, hp, hn, parsesPositive]
      · simp [add_workout_logic, hcond, hp, hn, parsesPositive]
        omega

/-- C1 witness: the amended theorem applied at workout "Run" and
duration "30". -/
theorem C1_witness :
    ((add_workout_logic (.pstr "Run") "30" []).1.status = "success")
      ↔ parsesPositive "30" = true :=
  C1_accepts_iff_positive_int "Run" "30" [] (by decide)

/-- C2: on every successful call, `add_workout_logic` appends exactly
one record to the end of the store — the pair of the given workout and
the parsed integer duration — and all previously stored entries are kept
unchanged and in order (the new list is the old list with one entry
appended). -/
theorem C2_success_appends_one (w : PyVal) (d : String) (ws : Workouts)
    (h : (add_workout_logic w d ws).1.status = "success") :
    ∃ n, pyInt d = some n ∧
      (add_workout_logic w d ws).2 = ws ++ [⟨w, n⟩] := by
  rcases add_workout_logic_cases w d ws with ⟨he, _⟩ | ⟨n, hp, _, _, _, hap⟩
  · rw [he] at h
    exact absurd h (by decide)
  · exact ⟨n, hp, hap⟩

/-- C2 witness: adding workout "Run" with duration "30" to a one-entry
store appends exactly one entry at the end. -/
theorem C2_witness :
    (add_workout_logic (.pstr "Run") "30" [⟨.pstr "Yoga", 10⟩]).1.status = "success" ∧
    ∃ n, pyInt "30" = some n ∧
      (add_workout_logic (.pstr "Run") "30" [⟨.pstr "Yoga", 10⟩]).2 =
        [⟨.pstr "Yoga", 10⟩] ++ [⟨.pstr "Run", n⟩] :=
  ⟨by decide, C2_success_appends_one (.pstr "Run") "30" [⟨.pstr "Yoga", 10⟩] (by decide)⟩

/-- C4: the list operation returns the complete store without
pagination: the summary's total_workouts is the length of the list, its
workouts field is the entire list in insertion order, and the store is
left unchanged. -/
theorem C4_get_workouts_returns_all (ws : Workouts) :
    (get_workouts ws).1.total_workouts = ws.length
    ∧ (get_workouts ws).1.workouts = ws
    ∧ (get_workouts ws).2 = ws :=
  ⟨rfl, rfl, rfl⟩

/-- C3: for every non-empty workout string and non-empty duration
string, `add_workout_logic` returns the message
"Duration must be a number." exactly when Python integer parsing of the
duration string fails (the modelled `ValueError` of the single
`try/except` of the program, the only exception handler in the source). -/
theorem C3_number_error_iff_parse_fails (w d : String) (ws : Workouts)
    (hw : w ≠ "") (hd : d ≠ "") :
    ((add_workout_logic (.pstr w) d ws).1.message = "Duration must be a number.")
      ↔ pyInt d = none := by
  have hcond : ¬ (pyTruthy (.pstr w) = false ∨ d = "") := by
    push_neg
    exact ⟨by simp [pyTruthy, hw], hd⟩
  rcases hp : pyInt d with _ | n
  · simp [add_workout_logic, hcond, hp]
  · by_cases hn : n ≤ 0
    · simp [add_workout_logic, hcond, hp, hn]
    · simp [add_workout_logic, hcond, hp, hn, pyStr]
      intro hcontra
      have hdata := congrArg String.data hcontra
      simp [String.data_append] at hdata

/-- C3 witness: workout "Run", duration "abc": the message is the
number error and parsing fails. -/
theorem C3_witness :
    ((add_workout_logic (.pstr "Run") "abc" []).1.message = "Duration must be a number.")
      ↔ pyInt "abc" = none :=
  C3_number_error_iff_parse_fails "Run" "abc" [] (by decide) (by decide)

/-- A concrete always-succeeding add used to realise arbitrarily long
stores: one application of `add_workout_logic` with workout "Running"
and duration "30". -/
def addRunStep (ws : Workouts) : Workouts :=
  (add_workout_logic (.pstr "Running") "30" ws).2

/-- `n` consecutive successful add operations starting from the empty
store. -/
def iterAdd : Nat → Workouts
  | 0 => []
  | n + 1 => addRunStep (iterAdd n)

/-- Evaluating the concrete add: it appends exactly one entry. -/
theorem addRunStep_eq (ws : Workouts) :
    addRunStep ws = ws ++ [⟨.pstr "Running", 30⟩] :=
  rfl

/-- The store handlers never drop entries: `add_workout` returns either
the same store or the store with one entry appended, so the old store is
a prefix of the new one. -/
theorem add_workout_state (b : ReqBody) (ws : Workouts) :
    (add_workout b ws).2 =
      (add_workout_logic (b.workout.getD (.pstr ""))
        (pyStr (b.duration.getD (.pstr ""))) ws).2 := by
  by_cases h : (add_workout_logic (b.workout.getD (.pstr ""))
      (pyStr (b.duration.getD (.pstr ""))) ws).1.status = "error" <;>
    simp [add_workout, h]

/-- C5: the store is unbounded and never truncated: every successful
call of `add_workout_logic` grows the store by exactly one entry, every
operation of the service keeps the old store as a prefix of the new one
(nothing is ever removed), the concrete add of workout "Running" with
duration "30" always succeeds, and iterating it `n` times from the
empty store yields a store of length exactly `n`. -/
theorem C5_store_unbounded :
    (∀ (w : PyVal) (d : String) (ws : Workouts),
        (add_workout_logic w d ws).1.status = "success" →
        ((add_workout_logic w d ws).2).length = ws.length + 1)
    ∧ (∀ (op : Op) (ws : Workouts), ws <+: applyOp op ws)
    ∧ (∀ ws : Workouts, (add_workout_logic (.pstr "Running") "30" ws).1.status = "success")
    ∧ (∀ n : Nat, (iterAdd n).length = n) := by
  refine ⟨?_, ?_, ?_, ?_⟩
  · intro w d ws h
    rcases add_workout_logic_cases w d ws with ⟨he, _⟩ | ⟨n, _, _, _, _, hap⟩
    · rw [he] at h
      exact absurd h (by decide)
    · rw [hap]
      simp
  · intro op ws
    cases op with
    | homeOp => exact List.prefix_refl ws
    | healthOp => exact List.prefix_refl ws
    | listOp => exact List.prefix_refl ws
    | addOp b =>
        show ws <+: (add_workout b ws).2
        rw [add_workout_state]
        rcases add_workout_logic_cases (b.workout.getD (.pstr ""))
            (pyStr (b.duration.getD (.pstr ""))) ws with ⟨_, hs⟩ | ⟨n, _, _, _, _, hap⟩
        · rw [hs]
        · rw [hap]
          exact List.prefix_append ws _
  · intro ws
    rfl
  · intro n
    induction n with
    | zero => rfl
    | succ n ih => simp [iterAdd, addRunStep_eq, ih]

/-- C5 witness: the first conjunct applied at the concrete successful
call with workout "Running" and duration "30" on the empty store. -/
theorem C5_witness :
    ((add_workout_logic (.pstr "Running") "30" ([] : Workouts)).2).length =
      ([] : Workouts).length + 1 :=
  C5_store_unbounded.1 (.pstr "Running") "30" [] (by decide)

/-- C6: the liveness probe is state-independent and always healthy: for
every store, `health_check` returns HTTP status 200 with body status
"UP" and version "1.0", and returns the store unchanged — in particular
its response is the same constant for every store, so it reads no
application data. -/
theorem C6_health_constant (ws : Workouts) :
    health_check ws = ((⟨"UP", "1.0"⟩, 200), ws) :=
  rfl

/-- C7: the HTTP interface is exactly the four routed operations over
three distinct paths: a method/path pair dispatches to an operation
exactly when it is in the route table, the table has four entries
(GET /, GET /health, POST /api/workouts, GET /api/workouts), and the
distinct paths number three. -/
theorem C7_route_table :
    (∀ (m : Method) (p : String) (b : ReqBody),
        (dispatch m p b).isSome = true ↔ (m, p) ∈ routes)
    ∧ routes.length = 4
    ∧ ((routes.map Prod.snd).dedup).length = 3 := by
  refine ⟨?_, rfl, by decide⟩
  intro m p b
  cases m <;> unfold dispatch <;> split_ifs <;> simp_all [routes]

/-- C7 witness: the dispatch characterisation applied at GET "/" with
an empty body. -/
theorem C7_witness :
    (dispatch .GET "/" ⟨none, none⟩).isSome = true ↔ (Method.GET, "/") ∈ routes :=
  C7_route_table.1 .GET "/" ⟨none, none⟩

/-- C8: errors are atomic: whenever `add_workout_logic` returns status
"error", the store after the call is identical to the store before. -/
theorem C8_error_leaves_store (w : PyVal) (d : String) (ws : Workouts)
    (h : (add_workout_logic w d ws).1.status = "error") :
    (add_workout_logic w d ws).2 = ws := by
  rcases add_workout_logic_cases w d ws with ⟨_, hs⟩ | ⟨n, _, _, _, hsucc, _⟩
  · exact hs
  · rw [hsucc] at h
    exact absurd h (by decide)

/-- C8 witness: the empty-workout error on a one-entry store leaves the
store unchanged. -/
theorem C8_witness :
    (add_workout_logic (.pstr "") "5" [⟨.pstr "Yoga", 10⟩]).2 = [⟨.pstr "Yoga", 10⟩] :=
  C8_error_leaves_store (.pstr "") "5" [⟨.pstr "Yoga", 10⟩] (by decide)

/-- The store invariant of claim C9: every entry is a flat pair whose
workout is a truthy (non-empty) value and whose duration is strictly
positive.  That each entry has exactly the two fields is enforced by
the `Entry` structure itself. -/
def StoreInv (ws : Workouts) : Prop :=
  ∀ e ∈ ws, pyTruthy e.workout = true ∧ 0 < e.duration

/-- Every routed operation preserves the store invariant. -/
theorem applyOp_preserves_inv (op : Op) (ws : Workouts) (h : StoreInv ws) :
    StoreInv (applyOp op ws) := by
  cases op with
  | homeOp => exact h
  | healthOp => exact h
  | listOp => exact h
  | addOp b =>
      show StoreInv (add_workout b ws).2
      rw [add_workout_state]
      rcases add_workout_logic_cases (b.workout.getD (.pstr ""))
          (pyStr (b.duration.getD (.pstr ""))) ws with ⟨_, hs⟩ | ⟨n, _, hn, htr, _, hap⟩
      · rw [hs]
        exact h
      · rw [hap]
        intro e he
        rcases List.mem_append.mp he with hin | hin
        · exact h e hin
        · rcases List.mem_singleton.mp hin with rfl
          exact ⟨htr, hn⟩

/-- C9: every operation of the service preserves the store invariant
(truthy workout, strictly positive duration, exactly two fields per
entry), and every state reachable from the initial empty store by a
sequence of routed operations satisfies it. -/
theorem C9_store_invariant :
    (∀ (op : Op) (ws : Workouts), StoreInv ws → StoreInv (applyOp op ws))
    ∧ (∀ ops : List Op, StoreInv (ops.foldl (fun ws op => applyOp op ws) WORKOUTS)) := by
  refine ⟨applyOp_preserves_inv, ?_⟩
  intro ops
  have hgen : ∀ ws : Workouts, StoreInv ws →
      StoreInv (ops.foldl (fun ws op => applyOp op ws) ws) := by
    induction ops with
    | nil => intro ws h; simpa using h
    | cons op ops ih =>
        intro ws h
        exact ih _ (applyOp_preserves_inv op ws h)
  refine hgen WORKOUTS ?_
  intro e he
  simp [WORKOUTS] at he

/-- C9 witness: the first conjunct applied to the add operation for
workout "Run" with duration 30 on the empty initial store. -/
theorem C9_witness :
    StoreInv (applyOp (.addOp ⟨some (.pstr "Run"), some (.pint 30)⟩) WORKOUTS) :=
  C9_store_invariant.1 (.addOp ⟨some (.pstr "Run"), some (.pint 30)⟩) WORKOUTS
    (by intro e he; simp [WORKOUTS] at he)

/-- C10: the HTTP layer coerces the JSON duration to a string before
validation and maps logic errors to HTTP statuses: the integer JSON
value 30 is accepted with 201; the non-integral number 30.5 and the
string "30.5" are rejected as not a number; a missing workout or
duration key becomes the empty string and yields the both-fields error;
and the response status is 400 exactly when `add_workout_logic` returns
status "error", 201 otherwise. -/
theorem C10_http_coercion_and_status :
    ((add_workout ⟨some (.pstr "Run"), some (.pint 30)⟩ []).1.2 = 201)
    ∧ ((add_workout ⟨some (.pstr "Run"), some (.pfloat 30 "5")⟩ []).1.1 =
        ⟨"error", "Duration must be a number."⟩
      ∧ (add_workout ⟨some (.pstr "Run"), some (.pfloat 30 "5")⟩ []).1.2 = 400)
    ∧ ((add_workout ⟨some (.pstr "Run"), some (.pstr "30.5")⟩ []).1.1 =
        ⟨"error", "Duration must be a number."⟩)
    ∧ ((add_workout ⟨none, some (.pint 30)⟩ []).1.1 =
        ⟨"error", "Please enter both workout and duration."⟩)
    ∧ ((add_workout ⟨some (.pstr "Run"), none⟩ []).1.1 =
        ⟨"error", "Please enter both workout and duration."⟩)
    ∧ (∀ (b : ReqBody) (ws : Workouts),
        ((add_workout b ws).1.2 = 400 ↔
          (add_workout_logic (b.workout.getD (.pstr ""))
            (pyStr (b.duration.getD (.pstr ""))) ws).1.status = "error")
        ∧ ((add_workout b ws).1.2 = 201 ↔
          ¬ (add_workout_logic (b.workout.getD (.pstr ""))
              (pyStr (b.duration.getD (.pstr ""))) ws).1.status = "error")) := by
  refine ⟨by decide, ⟨by decide, by decide⟩, by decide, by decide, by decide, ?_⟩
  intro b ws
  by_cases h : (add_workout_logic (b.workout.getD (.pstr ""))
      (pyStr (b.duration.getD (.pstr ""))) ws).1.status = "error"
  · constructor <;> simp [add_workout, h]
  · constructor <;> simp [add_workout, h]

/-- C10 witness: the status-mapping conjunct applied at a concrete
accepted request on the empty store. -/
theorem C10_witness :
    (add_workout ⟨some (.pstr "Run"), some (.pint 30)⟩ []).1.2 = 201 :=
  C10_http_coercion_and_status.1

end ACEestFitness
